import Mathlib

/-!
# Verification of the react-movie favourites store and browse view

A shallow embedding of the application logic of the react-movie repository:

* `src/contexts/MovieContext.jsx` — the favourites store: an in-memory list of
  movie records mirrored to the durable storage slot named "favourites".
* `src/pages/Home.jsx` — the browse view: initial popular-movies load, search
  submission, and the render-time title filter.

Machine integers of the catalog (movie identifiers) are modelled as `Int`;
strings as Lean `String`; the durable storage slot as an optional string
content, abstracted to the distinctions that matter to `JSON.parse`.
-/

set_option autoImplicit false

namespace ReactMovie

/-- A catalog movie record.  The source treats movies as opaque records keyed
by the integer field `id`; only `id` and `title` are inspected by the code
under verification (`movie.id` in the store, `movie.title` in the render
filter), so the embedding carries exactly those fields. -/
structure Movie where
  id : Int
  title : String
deriving DecidableEq, Repr

/-! ## Favourites store (`MovieContext.jsx`)

The favourites state is the React state array `favourites : List Movie`.
Each operation below is the body of the corresponding `setFavourites`
updater in the source. -/

/-- `addToFavourites` from `MovieContext.jsx` line 64–66:
`setFavourites((prev) => [...prev, movie])` — unconditionally appends
`movie` at the end of the previous list. -/
def addToFavourites (prev : List Movie) (movie : Movie) : List Movie :=
  prev ++ [movie]

/-- `removeFromFavourites` from `MovieContext.jsx` line 71–73:
`setFavourites((prev) => prev.filter((movie) => movie.id !== movieId))`. -/
def removeFromFavourites (prev : List Movie) (movieId : Int) : List Movie :=
  prev.filter (fun movie => movie.id != movieId)

/-- `isFavourites` from `MovieContext.jsx` line 78–80:
`favourites.some((movie) => movie.id === movieId)`. -/
def isFavourites (favourites : List Movie) (movieId : Int) : Bool :=
  favourites.any (fun movie => movie.id == movieId)

/-! ### Operation sequences

For the set-semantics claims we close the three operations under finite
sequences starting from the initially empty list (the `useState([])`
initial state). -/

/-- A mutation of the favourites store, as invoked through the context. -/
inductive Op where
  | addOp (movie : Movie)
  | removeOp (movieId : Int)
deriving DecidableEq, Repr

/-- Apply one mutation to the favourites state. -/
def applyOp (s : List Movie) : Op → List Movie
  | .addOp movie => addToFavourites s movie
  | .removeOp movieId => removeFromFavourites s movieId

/-- Run a sequence of mutations from the initially empty favourites list. -/
def applyOps (ops : List Op) : List Movie :=
  ops.foldl applyOp []

/-- Whether an operation affects membership of the identifier `movieId`:
an add of a movie carrying that identifier, or a remove of that identifier. -/
def affectsId (movieId : Int) : Op → Bool
  | .addOp movie => movie.id == movieId
  | .removeOp i => i == movieId

/-- The last operation in `ops` (scanning left to right) that affects
`movieId`, if any. -/
def lastAffecting (movieId : Int) : List Op → Option Op
  | [] => none
  | op :: rest =>
    match lastAffecting movieId rest with
    | some o => some o
    | none => if affectsId movieId op then some op else none

/-- The predicate of claim C2: the last operation of the sequence affecting
`movieId` exists and is an add. -/
def lastOpIsAdd (movieId : Int) (ops : List Op) : Bool :=
  match lastAffecting movieId ops with
  | some (.addOp _) => true
  | _ => false

/-! ### Helper lemmas about the store operations -/

theorem isFavourites_append (s : List Movie) (m : Movie) (movieId : Int) :
    isFavourites (s ++ [m]) movieId = (isFavourites s movieId || (m.id == movieId)) := by
  simp [isFavourites, List.any_append]

theorem isFavourites_removeFromFavourites_self (s : List Movie) (movieId : Int) :
    isFavourites (removeFromFavourites s movieId) movieId = false := by
  unfold isFavourites removeFromFavourites
  rw [List.any_filter]
  simp

theorem isFavourites_removeFromFavourites_other (s : List Movie) {i movieId : Int}
    (h : i ≠ movieId) :
    isFavourites (removeFromFavourites s i) movieId = isFavourites s movieId := by
  unfold isFavourites removeFromFavourites
  rw [List.any_filter]
  congr 1
  funext a
  by_cases hq : a.id = movieId
  · have hi : a.id ≠ i := by
      rw [hq]
      exact fun hh => h hh.symm
    simp [hq, hi, Ne.symm h]
  · simp [hq]

/-- Generalised induction lemma behind claim C2: running any operation
sequence from any starting state, membership of `movieId` is decided by the
last operation of the sequence that affects `movieId`; when none does, it is
the starting state's membership. -/
theorem isFavourites_foldl (ops : List Op) : ∀ (s : List Movie) (movieId : Int),
    isFavourites (ops.foldl applyOp s) movieId =
      (match lastAffecting movieId ops with
       | some (.addOp _) => true
       | some (.removeOp _) => false
       | none => isFavourites s movieId) := by
  induction ops with
  | nil => intro s movieId; rfl
  | cons op rest ih =>
    intro s movieId
    rw [List.foldl_cons, ih (applyOp s op) movieId]
    show _ = (match lastAffecting movieId (op :: rest) with
       | some (.addOp _) => true
       | some (.removeOp _) => false
       | none => isFavourites s movieId)
    rw [lastAffecting]
    cases hrest : lastAffecting movieId rest with
    | some o => cases o <;> rfl
    | none =>
      cases op with
      | addOp m =>
        by_cases hm : m.id = movieId
        · simp only [affectsId, hm, beq_self_eq_true, if_true]
          show isFavourites (addToFavourites s m) movieId = true
          rw [addToFavourites, isFavourites_append, hm]
          simp
        · have : (m.id == movieId) = false := by simp [hm]
          simp only [affectsId, this, Bool.false_eq_true, if_false]
          show isFavourites (addToFavourites s m) movieId = isFavourites s movieId
          rw [addToFavourites, isFavourites_append, this]
          simp
      | removeOp i =>
        by_cases hi : i = movieId
        · simp only [affectsId, hi, beq_self_eq_true, if_true]
          show isFavourites (removeFromFavourites s movieId) movieId = false
          exact isFavourites_removeFromFavourites_self s movieId
        · have : (i == movieId) = false := by simp [hi]
          simp only [affectsId, this, Bool.false_eq_true, if_false]
          show isFavourites (removeFromFavourites s i) movieId = isFavourites s movieId
          exact isFavourites_removeFromFavourites_other s hi

/-! ## Durable storage model (`MovieContext.jsx`, the two `useEffect` hooks)

`localStorage.getItem("favourites")` returns either `null` (slot absent) or a
string.  The init effect is
`if (storedFavs) setFavourites(JSON.parse(storedFavs))`: a falsy result
(`null` or the empty string) is skipped, otherwise the string is fed to
`JSON.parse` with no surrounding try/catch.  We abstract a stored string to
the three cases that the code distinguishes: the empty string (falsy),
text that `JSON.parse` rejects, and text that parses to some JSON value. -/

/-- A parsed JSON value, abstracted to whether it is an array of Movie
records (the only shape the store ever writes) or some other JSON value. -/
inductive Json where
  | arr (movies : List Movie)
  | nonArr
deriving DecidableEq, Repr

/-- Content of a stored string, classified by how `JSON.parse` treats it. -/
inductive StrContent where
  | emptyStr
  | malformed
  | jsonOf (v : Json)
deriving DecidableEq, Repr

/-- JavaScript truthiness of the stored string: only the empty string is
falsy. -/
def truthy : StrContent → Bool
  | .emptyStr => false
  | .malformed => true
  | .jsonOf _ => true

/-- `JSON.parse`: throws a SyntaxError (modelled as `Except.error`) on the
empty string and on malformed text, returns the parsed value otherwise. -/
def jsonParse : StrContent → Except Unit Json
  | .emptyStr => .error ()
  | .malformed => .error ()
  | .jsonOf v => .ok v

/-- Outcome of the init effect for the `favourites` React state. -/
inductive InitResult where
  | ok (favs : List Movie)
  | nonListState
  | exn
deriving DecidableEq, Repr

/-- `setFavourites(JSON.parse(storedFavs))`: an array of movies becomes the
favourites list; any other JSON value is stored as-is into the state
variable, leaving the favourites in a non-list state. -/
def setFavouritesFromJson : Json → InitResult
  | .arr movies => .ok movies
  | .nonArr => .nonListState

/-- The init effect of `MovieProvider` (`MovieContext.jsx` line 47–51):
read the slot, skip when falsy (so the state keeps its `useState([])`
initial value), else parse and adopt.  A parse failure propagates as an
exception. -/
def initFavourites (storedFavs : Option StrContent) : InitResult :=
  match storedFavs with
  | none => .ok []
  | some s =>
    if truthy s then
      match jsonParse s with
      | .ok v => setFavouritesFromJson v
      | .error _ => .exn
    else .ok []

/-- `JSON.stringify(favourites)` for a list of movie records: the platform
guarantees a non-empty string that `JSON.parse` maps back to the same
array, which the embedding records by keeping the parsed value. -/
def jsonStringify (favs : List Movie) : StrContent :=
  .jsonOf (.arr favs)

/-- The persist effect of `MovieProvider` (`MovieContext.jsx` line 56–58):
`localStorage.setItem("favourites", JSON.stringify(favourites))` — the slot
content after the effect runs. -/
def persistFavourites (favs : List Movie) : Option StrContent :=
  some (jsonStringify favs)

/-- The favourites state together with the content of the durable storage
slot named "favourites". -/
structure StoreState where
  favourites : List Movie
  storedFavs : Option StrContent
deriving DecidableEq, Repr

/-- An `addToFavourites` call followed by the persist effect that React runs
once the state update commits. -/
def commitAdd (st : StoreState) (movie : Movie) : StoreState :=
  let favs := addToFavourites st.favourites movie
  { favourites := favs, storedFavs := persistFavourites favs }

/-- A `removeFromFavourites` call followed by the persist effect. -/
def commitRemove (st : StoreState) (movieId : Int) : StoreState :=
  let favs := removeFromFavourites st.favourites movieId
  { favourites := favs, storedFavs := persistFavourites favs }

/-! ## Browse view (`Home.jsx`)

The four `useState` variables of the `Home` component.  The catalog calls
(`getPopularMovies`, `searchMovies`) are opaque promises; a settled call is
modelled as an `Except Unit (List Movie)` outcome passed to the handler. -/

/-- The view state of `Home.jsx`: `searchQuery`, `movies`, `error`,
`loading`. -/
structure HomeState where
  searchQuery : String
  movies : List Movie
  error : Option String
  loading : Bool
deriving DecidableEq, Repr

/-- The state on first render: `useState("")`, `useState([])`,
`useState(null)`, `useState(true)`. -/
def initialHomeState : HomeState :=
  { searchQuery := "", movies := [], error := none, loading := true }

/-- JavaScript `s.trim()`: strip whitespace from both ends, modelled
character-wise over the string's character list. -/
def trimString (s : String) : String :=
  ⟨((s.data.dropWhile Char.isWhitespace).reverse.dropWhile
      Char.isWhitespace).reverse⟩

/-- JavaScript `s.toLowerCase()`: lower-case every character. -/
def lowerString (s : String) : String :=
  ⟨s.data.map Char.toLower⟩

/-- `loadPopularMovies` from `Home.jsx` line 47–69, from request settle to
state commit: on success `setMovies`, on failure
`setError("Failed to load movies...")`, and in the `finally` block
`setLoading(false)`. -/
def loadPopularMovies (st : HomeState) (result : Except Unit (List Movie)) : HomeState :=
  match result with
  | .ok popularMovies => { st with movies := popularMovies, loading := false }
  | .error _ => { st with error := some "Failed to load movies...", loading := false }

/-- `handleSearch` from `Home.jsx` line 78–105.  Returns the state after the
submission settles together with a flag telling whether `searchMovies` was
invoked.  The two guards return before any state change or network call;
otherwise the search runs: on success `setMovies` and `setError(null)`, on
failure `setError("Failed to search Movies...")`, and `setLoading(false)`
in the `finally` block. -/
def handleSearch (st : HomeState) (result : Except Unit (List Movie)) :
    HomeState × Bool :=
  if trimString st.searchQuery = "" then (st, false)
  else if st.loading then (st, false)
  else
    match result with
    | .ok searchResults =>
      ({ st with movies := searchResults, error := none, loading := false }, true)
    | .error _ =>
      ({ st with error := some "Failed to search Movies...", loading := false }, true)

/-! ## Render-time title filter (`Home.jsx` line 153–164)

`movies.map(m => m.title.toLowerCase().includes(searchQuery.toLowerCase()) && <MovieCard/>)`
renders a card exactly for the movies passing the test (a `false` entry
renders nothing), so the displayed sequence is a filter of the stored
list.  JavaScript `String.prototype.includes` is contiguous-substring
containment, modelled character-wise below. -/

/-- Whether the character list starts with the pattern `pat`. -/
def startsWithChars : List Char → List Char → Bool
  | _, [] => true
  | [], _ :: _ => false
  | c :: cs, p :: ps => p == c && startsWithChars cs ps

/-- Whether `pat` occurs contiguously inside `l`. -/
def charsInclude (l pat : List Char) : Bool :=
  (List.range (l.length + 1)).any (fun i => startsWithChars (l.drop i) pat)

/-- JavaScript `s.includes(pat)`. -/
def strIncludes (s pat : String) : Bool :=
  charsInclude s.toList pat.toList

/-- The render filter predicate:
`movie.title.toLowerCase().includes(searchQuery.toLowerCase())`. -/
def titleMatches (searchQuery : String) (movie : Movie) : Bool :=
  strIncludes (lowerString movie.title) (lowerString searchQuery)

/-- The movies the grid actually displays for a stored result list and the
current query text. -/
def displayedMovies (movies : List Movie) (searchQuery : String) : List Movie :=
  movies.filter (titleMatches searchQuery)

/-! ### Concrete records used by witnesses and counterexamples -/

/-- A concrete movie record. -/
def dune : Movie := { id := 1, title := "Dune" }

/-- A second concrete movie record with a distinct identifier. -/
def arrival : Movie := { id := 2, title := "Arrival" }

/-! ### Characterisation of the substring test -/

theorem startsWithChars_iff (pat : List Char) : ∀ l : List Char,
    startsWithChars l pat = true ↔ ∃ rest, l = pat ++ rest := by
  induction pat with
  | nil =>
    intro l
    constructor
    · intro _
      exact ⟨l, rfl⟩
    · intro _
      cases l <;> rfl
  | cons p ps ih =>
    intro l
    cases l with
    | nil =>
      constructor
      · intro h
        exact absurd h (by simp [startsWithChars])
      · rintro ⟨rest, hr⟩
        exact absurd hr (by simp)
    | cons c cs =>
      rw [startsWithChars, Bool.and_eq_true, beq_iff_eq, ih cs]
      constructor
      · rintro ⟨hpc, rest, hr⟩
        refine ⟨rest, ?_⟩
        rw [List.cons_append, hpc, hr]
      · rintro ⟨rest, hr⟩
        rw [List.cons_append] at hr
        obtain ⟨h1, h2⟩ := List.cons.injEq .. ▸ hr
        exact ⟨h1.symm, rest, h2⟩

theorem charsInclude_iff (l pat : List Char) :
    charsInclude l pat = true ↔ ∃ pre post, l = pre ++ pat ++ post := by
  rw [charsInclude, List.any_eq_true]
  constructor
  · rintro ⟨i, _, hstart⟩
    obtain ⟨post, hpost⟩ := (startsWithChars_iff pat (l.drop i)).mp hstart
    refine ⟨l.take i, post, ?_⟩
    rw [List.append_assoc, ← hpost, List.take_append_drop]
  · rintro ⟨pre, post, hl⟩
    refine ⟨pre.length, ?_, ?_⟩
    · rw [List.mem_range, hl]
      simp [List.length_append]
      omega
    · rw [hl, List.append_assoc, List.drop_left, startsWithChars_iff]
      exact ⟨post, rfl⟩

/-! ## Claim theorems -/

/-- C1, counterexample: with the favourites list already holding the movie
`dune` (identifier 1), calling add with a movie of the same identifier does
NOT leave the set unchanged — `addToFavourites` appends unconditionally, and
the identifier 1 then appears twice, violating the uniqueness invariant. -/
theorem addToFavourites_duplicate_counterexample :
    isFavourites [dune] dune.id = true ∧
    addToFavourites [dune] dune ≠ [dune] ∧
    (addToFavourites [dune] dune).countP (fun m => m.id == dune.id) = 2 := by
  decide

/-- C1, amended: `add(movie)` always appends `movie` at the end of the
favourites list, even when an entry with its identifier is already present;
in that case the resulting list holds the identifier at least twice, so the
store itself does not enforce the uniqueness invariant. -/
theorem addToFavourites_appends (s : List Movie) (movie : Movie) :
    addToFavourites s movie = s ++ [movie] ∧
    (isFavourites s movie.id = true →
      2 ≤ (addToFavourites s movie).countP (fun m => m.id == movie.id)) := by
  refine ⟨rfl, fun h => ?_⟩
  rw [isFavourites] at h
  have h1 : 0 < s.countP (fun m => m.id == movie.id) :=
    List.countP_pos_iff.mpr (List.any_eq_true.mp h)
  have h2 : (addToFavourites s movie).countP (fun m => m.id == movie.id) =
      s.countP (fun m => m.id == movie.id) + 1 := by
    rw [addToFavourites, List.countP_append]
    simp [List.countP_cons]
  omega

/-- Witness for C1 (amended) at the concrete state `[dune]` and movie
`dune`. -/
theorem addToFavourites_appends_witness :
    addToFavourites [dune] dune = [dune] ++ [dune] ∧
    2 ≤ (addToFavourites [dune] dune).countP (fun m => m.id == dune.id) :=
  ⟨(addToFavourites_appends [dune] dune).1,
   (addToFavourites_appends [dune] dune).2 (by decide)⟩

/-- C2: for every finite sequence of add/remove operations applied from the
initially empty favourites list and every identifier, `isFavourites` returns
true exactly when the last operation of the sequence affecting that
identifier is an add of a movie carrying it. -/
theorem isFavourites_reflects_last_op (ops : List Op) (movieId : Int) :
    isFavourites (applyOps ops) movieId = lastOpIsAdd movieId ops := by
  rw [applyOps, isFavourites_foldl ops [] movieId, lastOpIsAdd]
  cases h : lastAffecting movieId ops with
  | none => rfl
  | some o => cases o <;> rfl

/-- C9: `removeFromFavourites` is idempotent, and removing an identifier
that is not a member leaves the favourites list unchanged. -/
theorem removeFromFavourites_idempotent (s : List Movie) (movieId : Int) :
    removeFromFavourites (removeFromFavourites s movieId) movieId =
      removeFromFavourites s movieId ∧
    (isFavourites s movieId = false → removeFromFavourites s movieId = s) := by
  constructor
  · rw [removeFromFavourites, removeFromFavourites, List.filter_filter]
    simp
  · intro h
    rw [isFavourites] at h
    rw [removeFromFavourites, List.filter_eq_self]
    intro a ha
    have := List.any_eq_false.mp h a ha
    simpa using this

/-- Witness for C9 at the concrete state `[dune]` and the non-member
identifier 2. -/
theorem removeFromFavourites_idempotent_witness :
    removeFromFavourites (removeFromFavourites [dune] 2) 2 =
      removeFromFavourites [dune] 2 ∧
    removeFromFavourites [dune] 2 = [dune] :=
  ⟨(removeFromFavourites_idempotent [dune] 2).1,
   (removeFromFavourites_idempotent [dune] 2).2 (by decide)⟩

/-- C10: a single `removeFromFavourites` call deletes every entry carrying
the removed identifier (membership is false afterwards, however many
duplicates were present), the surviving entries form a sublist of the
original list (relative order preserved), and every entry with a different
identifier survives. -/
theorem removeFromFavourites_removes_all (s : List Movie) (movieId : Int) :
    isFavourites (removeFromFavourites s movieId) movieId = false ∧
    (removeFromFavourites s movieId).Sublist s ∧
    (∀ m ∈ s, m.id ≠ movieId → m ∈ removeFromFavourites s movieId) := by
  refine ⟨isFavourites_removeFromFavourites_self s movieId, List.filter_sublist s, ?_⟩
  intro m hm hne
  rw [removeFromFavourites, List.mem_filter]
  exact ⟨hm, by simpa using hne⟩

/-- Witness for C10 at the concrete state `[dune, arrival, dune]` (the
identifier 1 present twice) and identifier 1. -/
theorem removeFromFavourites_removes_all_witness :
    isFavourites (removeFromFavourites [dune, arrival, dune] 1) 1 = false ∧
    (removeFromFavourites [dune, arrival, dune] 1).Sublist [dune, arrival, dune] ∧
    arrival ∈ removeFromFavourites [dune, arrival, dune] 1 :=
  ⟨(removeFromFavourites_removes_all [dune, arrival, dune] 1).1,
   (removeFromFavourites_removes_all [dune, arrival, dune] 1).2.1,
   (removeFromFavourites_removes_all [dune, arrival, dune] 1).2.2 arrival
     (by decide) (by decide)⟩

/-- C3, counterexample: on a stored value that `JSON.parse` rejects, the
init effect raises (there is no try/catch around `JSON.parse`) instead of
silently starting with the empty favourites set. -/
theorem initFavourites_malformed_counterexample :
    initFavourites (some StrContent.malformed) = InitResult.exn ∧
    initFavourites (some StrContent.malformed) ≠ InitResult.ok [] := by
  decide

/-- C3, amended: the init effect starts empty when the slot is absent or
holds the empty string, adopts a stored JSON array of Movie records as the
initial set, and raises — rather than silently discarding — exactly when
the stored data does not parse. -/
theorem initFavourites_behaviour (storedFavs : Option StrContent) :
    (initFavourites storedFavs = InitResult.exn ↔
      storedFavs = some StrContent.malformed) ∧
    (∀ movies, storedFavs = some (StrContent.jsonOf (Json.arr movies)) →
      initFavourites storedFavs = InitResult.ok movies) ∧
    ((storedFavs = none ∨ storedFavs = some StrContent.emptyStr) →
      initFavourites storedFavs = InitResult.ok []) := by
  rcases storedFavs with _ | s
  · refine ⟨by simp [initFavourites], by simp, by intro h; rfl⟩
  · cases s with
    | emptyStr =>
      exact ⟨by simp [initFavourites, truthy], by simp, by intro h; rfl⟩
    | malformed =>
      refine ⟨by simp [initFavourites, truthy, jsonParse], by simp, ?_⟩
      rintro (h | h) <;> exact absurd h (by simp)
    | jsonOf v =>
      refine ⟨?_, ?_, ?_⟩
      · cases v <;>
          simp [initFavourites, truthy, jsonParse, setFavouritesFromJson]
      · intro movies hm
        obtain rfl : v = Json.arr movies := by
          injection hm with hm1
          injection hm1 with hm2
        rfl
      · rintro (h | h) <;> exact absurd h (by simp)

/-- Witness for C3 (amended): the stored array `[dune]` is adopted, and an
absent slot yields the empty set. -/
theorem initFavourites_behaviour_witness :
    initFavourites (some (StrContent.jsonOf (Json.arr [dune]))) =
      InitResult.ok [dune] ∧
    initFavourites none = InitResult.ok [] :=
  ⟨(initFavourites_behaviour (some (StrContent.jsonOf (Json.arr [dune])))).2.1
      [dune] rfl,
   (initFavourites_behaviour none).2.2 (Or.inl rfl)⟩

/-- C4: serialising any favourites list to the storage slot (the persist
effect) and re-running the init effect on that stored value yields exactly
the original list — same identifiers, same records, same order. -/
theorem storage_round_trip (favs : List Movie) :
    initFavourites (persistFavourites favs) = InitResult.ok favs := rfl

/-- C5: after an add or a remove commits, the "favourites" slot holds
exactly the JSON serialisation of the entire current favourites list (a
whole-set overwrite), and that current list is the one produced by the
mutation applied to the previous state. -/
theorem mutation_persists_whole_set (st : StoreState) (movie : Movie)
    (movieId : Int) :
    (commitAdd st movie).storedFavs =
      some (jsonStringify (commitAdd st movie).favourites) ∧
    (commitAdd st movie).favourites = addToFavourites st.favourites movie ∧
    (commitRemove st movieId).storedFavs =
      some (jsonStringify (commitRemove st movieId).favourites) ∧
    (commitRemove st movieId).favourites =
      removeFromFavourites st.favourites movieId :=
  ⟨rfl, rfl, rfl, rfl⟩

/-- C6: submitting a search while the query text trims to the empty string,
or while a fetch is already in flight (`loading = true`), is a complete
no-op: the whole view state is returned unchanged and `searchMovies` is not
invoked. -/
theorem handleSearch_guard_noop (st : HomeState)
    (result : Except Unit (List Movie))
    (h : trimString st.searchQuery = "" ∨ st.loading = true) :
    handleSearch st result = (st, false) := by
  rcases h with h | h <;> simp [handleSearch, h]

/-- Witness for C6: a whitespace-only query with a fetch at rest. -/
theorem handleSearch_guard_noop_witness :
    handleSearch
        { searchQuery := "   ", movies := [dune], error := none,
          loading := false }
        (Except.ok [arrival]) =
      ({ searchQuery := "   ", movies := [dune], error := none,
          loading := false }, false) :=
  handleSearch_guard_noop _ _ (Or.inl (by decide))

/-- C7: however the initial `getPopularMovies` call settles, `loading` is
false afterwards (the `finally` block); when it fails, the error message is
exactly "Failed to load movies..." and the stored result list is left
unchanged (empty on the initial mount, where `movies` starts as `[]`). -/
theorem loadPopularMovies_settles (st : HomeState)
    (result : Except Unit (List Movie)) :
    (loadPopularMovies st result).loading = false ∧
    (∀ e, result = Except.error e →
      (loadPopularMovies st result).error = some "Failed to load movies..." ∧
      (loadPopularMovies st result).movies = st.movies) := by
  cases result <;> simp [loadPopularMovies]

/-- Witness for C7: the initial mount state with a rejected call. -/
theorem loadPopularMovies_settles_witness :
    (loadPopularMovies initialHomeState (Except.error ())).loading = false ∧
    (loadPopularMovies initialHomeState (Except.error ())).error =
      some "Failed to load movies..." ∧
    (loadPopularMovies initialHomeState (Except.error ())).movies = [] :=
  ⟨(loadPopularMovies_settles initialHomeState (Except.error ())).1,
   ((loadPopularMovies_settles initialHomeState (Except.error ())).2 () rfl).1,
   ((loadPopularMovies_settles initialHomeState (Except.error ())).2 () rfl).2⟩

/-- C8: the grid displays exactly the stored movies whose lower-cased title
contains the lower-cased query text as a contiguous substring; the displayed
sequence is a sublist of the stored list (the render filter never mutates
it), and with the query cleared the entire stored list is displayed. -/
theorem displayed_movies_characterisation (movies : List Movie)
    (searchQuery : String) :
    (∀ m, m ∈ displayedMovies movies searchQuery ↔
      m ∈ movies ∧
        ∃ pre post, (lowerString m.title).toList =
          pre ++ (lowerString searchQuery).toList ++ post) ∧
    (displayedMovies movies searchQuery).Sublist movies ∧
    displayedMovies movies "" = movies := by
  refine ⟨?_, List.filter_sublist movies, ?_⟩
  · intro m
    rw [displayedMovies, List.mem_filter, titleMatches, strIncludes,
      charsInclude_iff]
  · rw [displayedMovies, List.filter_eq_self]
    intro m _
    rw [titleMatches, strIncludes]
    rw [show lowerString "" = "" from rfl]
    rw [charsInclude_iff]
    exact ⟨[], (lowerString m.title).toList, rfl⟩

/-- Witness for C8 at the scenario of the spec: the list
`[dune, arrival]` with query "dun" displays exactly `dune`; clearing the
query restores the full list. -/
theorem displayed_movies_characterisation_witness :
    (dune ∈ displayedMovies [dune, arrival] "dun" ↔
      dune ∈ [dune, arrival] ∧
        ∃ pre post, (lowerString dune.title).toList =
          pre ++ (lowerString "dun").toList ++ post) ∧
    displayedMovies [dune, arrival] "" = [dune, arrival] ∧
    displayedMovies [dune, arrival] "dun" = [dune] :=
  ⟨(displayed_movies_characterisation [dune, arrival] "dun").1 dune,
   (displayed_movies_characterisation [dune, arrival] "").2.2,
   by decide⟩

end ReactMovie
